import Mathlib

/-!
Verification development for the remote/onsite allowance calculator
(`src/main.py`).  The app keeps a flat table of calendar entries
(`Start, End, Event_Type, Work_Mode, Remote_Type, Per_Diem_Rate, Km_Rate,
Distance_km, Per_Diem_Total, Travel_Cost, Description`), derives the monetary
fields per row (`recalculate_dataframe`), seeds a default timeline
(`build_initial_timeline`) and sorts the table by `Start` with a secondary
key placing `work`/`free` rows before `travel` rows.

The embedding below follows the Python source line by line:
* machine floats are modelled as exact rationals (`ℚ`); the only rounding in
  the source is `round(x, 2)`, modelled as decimal round-half-to-even;
* pandas `to_numeric(..., errors="coerce").fillna(0.0)` is modelled by
  raw numeric cells of type `Option ℚ` (`none` = unparsable cell, which the
  coercion turns into `0.0`);
* `datetime.strptime` with the two wire formats `%Y-%m-%d` and
  `%Y-%m-%dT%H:%M` is modelled by an explicit character-level parser for the
  zero-padded shapes `YYYY-MM-DD` / `YYYY-MM-DDTHH:MM` (the only formats the
  program documents and emits), with the same range validation
  (year ≥ 1, month 1–12, day within month incl. leap years, hour ≤ 23,
  minute ≤ 59);
* `datetime` date arithmetic (`timedelta(days=1)`, `(e - s).days`) is
  modelled on proleptic-Gregorian day numbers via the standard
  days-from-civil / civil-from-days conversions.
-/

/-- Civil date plus wall-clock time, the result of `parse_datetime`
(`datetime` restricted to the fields the program uses). -/
structure PyDateTime where
  year : Nat
  month : Nat
  day : Nat
  hour : Nat
  minute : Nat
deriving DecidableEq

/-- Gregorian leap-year test, as used by `datetime`. -/
def isLeap (y : Nat) : Bool :=
  y % 4 == 0 && (y % 100 != 0 || y % 400 == 0)

/-- Number of days in a month of a given year. -/
def daysInMonth (y m : Nat) : Nat :=
  if m = 2 then (if isLeap y then 29 else 28)
  else if m = 4 ∨ m = 6 ∨ m = 9 ∨ m = 11 then 30
  else 31

/-- Value of a decimal digit character, `none` when not a digit. -/
def digitVal (c : Char) : Option Nat :=
  if c.isDigit then some (c.toNat - 48) else none

/-- Validity of a civil date exactly as `datetime.strptime` checks it
(year 1–9999, month 1–12, day within the month). -/
def validDate (y m d : Nat) : Bool :=
  1 ≤ y && y ≤ 9999 && 1 ≤ m && m ≤ 12 && 1 ≤ d && d ≤ daysInMonth y m

/-- Parse the ten characters `YYYY-MM-DD` (format `%Y-%m-%d`). -/
def parseDateChars : List Char → Option (Nat × Nat × Nat)
  | [y1, y2, y3, y4, s1, m1, m2, s2, d1, d2] => do
    guard (s1 = '-' ∧ s2 = '-')
    let a ← digitVal y1
    let b ← digitVal y2
    let c ← digitVal y3
    let d ← digitVal y4
    let e ← digitVal m1
    let f ← digitVal m2
    let g ← digitVal d1
    let h ← digitVal d2
    let y := ((a * 10 + b) * 10 + c) * 10 + d
    let mo := e * 10 + f
    let da := g * 10 + h
    if validDate y mo da then some (y, mo, da) else none
  | _ => none

/-- Parse the sixteen characters `YYYY-MM-DDTHH:MM`
(format `%Y-%m-%dT%H:%M`). -/
def parseDateTimeChars : List Char → Option PyDateTime
  | [y1, y2, y3, y4, s1, m1, m2, s2, d1, d2, t, h1, h2, c, n1, n2] => do
    let (y, mo, da) ← parseDateChars [y1, y2, y3, y4, s1, m1, m2, s2, d1, d2]
    guard (t = 'T' ∧ c = ':')
    let a ← digitVal h1
    let b ← digitVal h2
    let e ← digitVal n1
    let f ← digitVal n2
    let hh := a * 10 + b
    let mm := e * 10 + f
    if hh ≤ 23 ∧ mm ≤ 59 then some ⟨y, mo, da, hh, mm⟩ else none
  | _ => none

/-- Whitespace-stripping on character lists; models Python `str.strip()`. -/
def stripChars (cs : List Char) : List Char :=
  ((cs.dropWhile Char.isWhitespace).reverse.dropWhile Char.isWhitespace).reverse

/-- Python `str.strip()`. -/
def pyStrip (s : String) : String :=
  ⟨stripChars s.data⟩

/-- Python `str.lower()` (ASCII case folding, which covers every tag the
program compares). -/
def pyLower (s : String) : String :=
  ⟨s.data.map Char.toLower⟩

/-- Source `parse_datetime`: strip, then parse as bare date (length 10,
interpreted at midnight) or as date-plus-time. -/
def parse_datetime (s : String) : Option PyDateTime :=
  let cs := (pyStrip s).data
  if cs.length = 10 then
    match parseDateChars cs with
    | some (y, mo, da) => some ⟨y, mo, da, 0, 0⟩
    | none => none
  else parseDateTimeChars cs

/-- Parser used on the configuration bounds
(`datetime.strptime(d, "%Y-%m-%d")`, no stripping). -/
def parse_date_only (s : String) : Option (Nat × Nat × Nat) :=
  parseDateChars s.data

/-- Day number of a civil date (days since 1970-01-01, the
days-from-civil algorithm); models the ordinal inside `datetime.date`. -/
def daysFromCivil (y m d : Nat) : Int :=
  let yi : Int := if m ≤ 2 then (y : Int) - 1 else (y : Int)
  let era : Int := yi / 400
  let yoe : Int := yi - era * 400
  let mp : Int := ((m : Int) + 9) % 12
  let doy : Int := (153 * mp + 2) / 5 + (d : Int) - 1
  let doe : Int := yoe * 365 + yoe / 4 - yoe / 100 + doy
  era * 146097 + doe - 719468

/-- Civil date of a day number (the civil-from-days algorithm), used to
render the dates the seeder steps through. -/
def civilFromDays (z : Int) : Nat × Nat × Nat :=
  let z' := z + 719468
  let era := z' / 146097
  let doe := z' - era * 146097
  let yoe := (doe - doe / 1460 + doe / 36524 - doe / 146096) / 365
  let y := yoe + era * 400
  let doy := doe - (365 * yoe + yoe / 4 - yoe / 100)
  let mp := (5 * doy + 2) / 153
  let d := doy - (153 * mp + 2) / 5 + 1
  let m := if mp < 10 then mp + 3 else mp - 9
  (if m ≤ 2 then (y + 1).toNat else y.toNat, m.toNat, d.toNat)

/-- Zero-pad a number to two digits (`strftime` `%m`, `%d`, `%H`, `%M`). -/
def pad2 (n : Nat) : String :=
  if n < 10 then "0" ++ toString n else toString n

/-- Zero-pad a number to four digits (`strftime` `%Y`). -/
def pad4 (n : Nat) : String :=
  if n < 10 then "000" ++ toString n
  else if n < 100 then "00" ++ toString n
  else if n < 1000 then "0" ++ toString n
  else toString n

/-- Render a civil date in the `YYYY-MM-DD` wire format. -/
def dateStr (ymd : Nat × Nat × Nat) : String :=
  pad4 ymd.1 ++ "-" ++ pad2 ymd.2.1 ++ "-" ++ pad2 ymd.2.2

/-- Inclusive day count of a row: source
`days = (end.date() - start.date()).days + 1; if days < 1: days = 1`. -/
def inclusiveDays (s e : PyDateTime) : Int :=
  let d := daysFromCivil e.year e.month e.day
    - daysFromCivil s.year s.month s.day + 1
  if d < 1 then 1 else d

/-- Round a rational to the nearest integer, ties to even
(the rounding of Python `round`). -/
def roundHalfEven (x : ℚ) : Int :=
  let f := ⌊x⌋
  let frac := x - (f : ℚ)
  if frac < 1 / 2 then f
  else if 1 / 2 < frac then f + 1
  else if f % 2 = 0 then f else f + 1

/-- Source `round(x, 2)`: round-half-to-even at two decimal places. -/
def round2 (x : ℚ) : ℚ :=
  (roundHalfEven (x * 100) : ℚ) / 100

/-- Blankness test of a description: Python `not s.strip()` is true exactly
when every character is whitespace (including the empty string). -/
def isBlank (s : String) : Bool :=
  s.data.all Char.isWhitespace

/-- Python `str.title()`: a letter starts upper-case after a non-letter and
lower-case after a letter. -/
def titleChars : Bool → List Char → List Char
  | _, [] => []
  | prev, c :: cs =>
    let c' := if c.isAlpha then (if prev then c.toLower else c.toUpper) else c
    c' :: titleChars c.isAlpha cs

/-- Python `str.title()` on a string. -/
def pyTitle (s : String) : String :=
  ⟨titleChars false s.data⟩

/-- Shortest exact decimal exponent of a rational: least `k ≤ 60` with
`q * 10^k` integral, when one exists. -/
def decExp? (q : ℚ) : Option Nat :=
  (List.range 61).find? (fun k => (q * (10 : ℚ) ^ k).den = 1)

/-- Left-pad a digit string with zeros to a given width. -/
def padZeros (s : String) (k : Nat) : String :=
  if s.length < k then String.mk (List.replicate (k - s.length) '0') ++ s else s

/-- Python `str(float)` for floats with a short exact decimal form (every
value the program interpolates into a description arises from such floats):
shortest decimal digits, integers rendered with a trailing `.0`. -/
def pyFloatRepr (q : ℚ) : String :=
  match decExp? q with
  | some k =>
    let n := (q * (10 : ℚ) ^ k).num
    let sgn := if n < 0 then "-" else ""
    let a := n.natAbs
    let ip := a / 10 ^ k
    let fp := a % 10 ^ k
    if k = 0 then sgn ++ toString ip ++ ".0"
    else sgn ++ toString ip ++ "." ++ padZeros (toString fp) k
  | none => toString q.num ++ "/" ++ toString q.den

/-- A table row with the numeric columns already coerced to numbers — the
state of the dataframe after the `pd.to_numeric(...).fillna(0.0)` block. -/
@[ext]
structure Row where
  Start : String
  End : String
  Event_Type : String
  Work_Mode : String
  Remote_Type : String
  Per_Diem_Rate : ℚ
  Km_Rate : ℚ
  Distance_km : ℚ
  Per_Diem_Total : ℚ
  Travel_Cost : ℚ
  Description : String
deriving DecidableEq

/-- A table row as loaded (all cells strings): a numeric cell is recorded as
its parsed value, or `none` when it does not parse as a number. -/
structure RawRow where
  Start : String
  End : String
  Event_Type : String
  Work_Mode : String
  Remote_Type : String
  Per_Diem_Rate : Option ℚ
  Km_Rate : Option ℚ
  Distance_km : Option ℚ
  Per_Diem_Total : Option ℚ
  Travel_Cost : Option ℚ
  Description : String
deriving DecidableEq

/-- The "Force numeric types" block of `recalculate_dataframe`:
`pd.to_numeric(col, errors="coerce").fillna(0.0)` — an unparsable cell
becomes `0.0`, a parsable one keeps its value. -/
def coerceRow (r : RawRow) : Row where
  Start := r.Start
  End := r.End
  Event_Type := r.Event_Type
  Work_Mode := r.Work_Mode
  Remote_Type := r.Remote_Type
  Per_Diem_Rate := r.Per_Diem_Rate.getD 0
  Km_Rate := r.Km_Rate.getD 0
  Distance_km := r.Distance_km.getD 0
  Per_Diem_Total := r.Per_Diem_Total.getD 0
  Travel_Cost := r.Travel_Cost.getD 0
  Description := r.Description

/-- Tag normalisation of the source loop:
`str(row[c]).lower().strip()`. -/
def normTag (s : String) : String :=
  pyStrip (pyLower s)

/-- The `work`/`remote` branch of the row loop: per-diem rate from the
remote type, total over the inclusive day span, travel fields zeroed,
description auto-filled when blank. -/
def workRemoteRow (inland foreign : ℚ) (days : Int) (rtype : String)
    (r : Row) : Row :=
  let rate := if rtype = "domestic" then inland
    else if rtype = "foreign" then foreign else 0
  { r with
    Per_Diem_Rate := rate
    Per_Diem_Total := round2 ((days : ℚ) * rate)
    Km_Rate := 0
    Distance_km := 0
    Travel_Cost := 0
    Description := if isBlank r.Description then
        "Remote work (" ++ rtype ++ ") from " ++ r.Start ++ " to " ++ r.End
      else r.Description }

/-- The `work` non-`remote` branch: every monetary field zeroed,
`Remote_Type` forced to `n/a`, description auto-filled when blank. -/
def workOtherRow (wmode : String) (r : Row) : Row :=
  { r with
    Per_Diem_Rate := 0
    Per_Diem_Total := 0
    Km_Rate := 0
    Distance_km := 0
    Travel_Cost := 0
    Description := if isBlank r.Description then
        pyTitle wmode ++ " work from " ++ r.Start ++ " to " ++ r.End
      else r.Description
    Remote_Type := "n/a" }

/-- The `travel` branch: the distance is clamped to `≥ 0` in a local only
(the stored `Distance_km` cell is not written back), the travel cost uses
the clamped value, per-diem fields zeroed, `Work_Mode` defaulted to
`remote` when unrecognized, `Remote_Type` defaulted to `n/a` when blank. -/
def travelRow (kmr : ℚ) (wmode rtype : String) (r : Row) : Row :=
  let dist := if r.Distance_km < 0 then (0 : ℚ) else r.Distance_km
  { r with
    Km_Rate := kmr
    Travel_Cost := round2 (dist * kmr)
    Per_Diem_Rate := 0
    Per_Diem_Total := 0
    Description := if isBlank r.Description then
        "Travel on " ++ r.Start ++ " covering " ++ pyFloatRepr dist ++ " km"
      else r.Description
    Work_Mode := if wmode = "onsite" ∨ wmode = "remote" then r.Work_Mode
      else "remote"
    Remote_Type := if rtype = "" then "n/a" else r.Remote_Type }

/-- The `free` branch: categorical tags reset, every monetary field zeroed,
description auto-filled when blank. -/
def freeRow (r : Row) : Row :=
  { r with
    Work_Mode := "free"
    Remote_Type := "n/a"
    Per_Diem_Rate := 0
    Per_Diem_Total := 0
    Km_Rate := 0
    Distance_km := 0
    Travel_Cost := 0
    Description := if isBlank r.Description then
        "Free from " ++ r.Start ++ " to " ++ r.End
      else r.Description }

/-- The unrecognized-`event_type` branch: the row is reset to a `free`
placeholder; note that the description is overwritten unconditionally. -/
def otherRow (r : Row) : Row :=
  { r with
    Event_Type := "free"
    Work_Mode := "free"
    Remote_Type := "n/a"
    Per_Diem_Rate := 0
    Per_Diem_Total := 0
    Km_Rate := 0
    Distance_km := 0
    Travel_Cost := 0
    Description := "Free from " ++ r.Start ++ " to " ++ r.End }

/-- Branch dispatch of the row loop on the normalised tags, after the dates
parsed and the inclusive day span is known. -/
def deriveRow (inland foreign kmr : ℚ) (days : Int) (r : Row) : Row :=
  let etype := normTag r.Event_Type
  let wmode := normTag r.Work_Mode
  let rtype := normTag r.Remote_Type
  if etype = "work" then
    if wmode = "remote" then workRemoteRow inland foreign days rtype r
    else workOtherRow wmode r
  else if etype = "travel" then travelRow kmr wmode rtype r
  else if etype = "free" then freeRow r
  else otherRow r

/-- One iteration of the row loop of `recalculate_dataframe`: parse
`Start`/`End`; on failure leave the row as it stands (`continue`),
otherwise derive. -/
def recalcRow (inland foreign kmr : ℚ) (r : Row) : Row :=
  match parse_datetime r.Start, parse_datetime r.End with
  | some sdt, some edt => deriveRow inland foreign kmr (inclusiveDays sdt edt) r
  | _, _ => r

/-- Full processing of one loaded row: the numeric-coercion block followed
by the row loop body. -/
def processRow (inland foreign kmr : ℚ) (raw : RawRow) : Row :=
  recalcRow inland foreign kmr (coerceRow raw)

/-- Source `recalculate_dataframe` on a loaded table: coercion of the
numeric columns, then the per-row derivation loop (each row is handled
independently). -/
def recalculate_dataframe (inland foreign kmr : ℚ)
    (rows : List RawRow) : List Row :=
  rows.map (processRow inland foreign kmr)

/-- The `free` placeholder the seeder emits for the day with the given day
number: `00:00`–`23:59` of that day, zero money, pre-filled description. -/
def freePlaceholder (z : Int) : Row :=
  let ds := dateStr (civilFromDays z)
  let startS := ds ++ "T00:00"
  let endS := ds ++ "T23:59"
  { Start := startS
    End := endS
    Event_Type := "free"
    Work_Mode := "free"
    Remote_Type := "n/a"
    Per_Diem_Rate := 0
    Km_Rate := 0
    Distance_km := 0
    Per_Diem_Total := 0
    Travel_Cost := 0
    Description := "Free from " ++ startS ++ " to " ++ endS }

/-- Source `build_initial_timeline`: parse both bounds with the bare-date
format (an unparsable bound raises, modelled as `none`), then emit one
`free` placeholder per day while `cur <= end_date`, stepping one day at a
time (`datetime` comparison and `timedelta(days=1)` act on the day number,
so the loop runs once per day number from `from` to `to` inclusive, and
zero times when `to < from`). -/
def build_initial_timeline (from_date to_date : String) : Option (List Row) :=
  match parse_date_only from_date, parse_date_only to_date with
  | some s, some e =>
    let a := daysFromCivil s.1 s.2.1 s.2.2
    let b := daysFromCivil e.1 e.2.1 e.2.2
    let n := if b < a then 0 else (b - a + 1).toNat
    some ((List.range n).map (fun i : Nat => freePlaceholder (a + (i : Int))))
  | _, _ => none

/-- Secondary sort key: source
`df["Event_Type"].map({"work": 0, "free": 0, "travel": 1})` — an unmapped
event type becomes NaN, which pandas orders after every number, modelled
as `2`. -/
def sortKeyNum (et : String) : Nat :=
  if et = "work" then 0
  else if et = "free" then 0
  else if et = "travel" then 1
  else 2

/-- Row comparison of `df.sort_values(by=["Start", "SortKey"])`:
lexicographic on the `Start` string, then on the numeric key. -/
def rowLE (a b : Row) : Bool :=
  if a.Start < b.Start then true
  else if a.Start = b.Start then
    decide (sortKeyNum a.Event_Type ≤ sortKeyNum b.Event_Type)
  else false

/-- The sort step; pandas `sort_values` on several columns uses
`np.lexsort`, a stable sort, modelled by stable merge sort. -/
def sortRows (rows : List Row) : List Row :=
  rows.mergeSort rowLE

/-- The recalculate-and-save pipeline on the loaded table: derivation over
every row, then the stable two-key sort. -/
def finalize (inland foreign kmr : ℚ) (rows : List RawRow) : List Row :=
  sortRows (recalculate_dataframe inland foreign kmr rows)

/-- The remote-domestic example row from the documentation:
`event_type=work, work_mode=remote, remote_type=domestic,
start=end=2025-06-01`, blank description. -/
def exampleRemoteRow : Row where
  Start := "2025-06-01"
  End := "2025-06-01"
  Event_Type := "work"
  Work_Mode := "remote"
  Remote_Type := "domestic"
  Per_Diem_Rate := 0
  Km_Rate := 0
  Distance_km := 0
  Per_Diem_Total := 0
  Travel_Cost := 0
  Description := ""

/-- A travel row whose `Work_Mode` is `onsite` and whose `Remote_Type` is a
non-blank value. -/
def travelOnsiteRow : Row where
  Start := "2025-06-01T08:00"
  End := "2025-06-01T10:00"
  Event_Type := "travel"
  Work_Mode := "onsite"
  Remote_Type := "domestic"
  Per_Diem_Rate := 0
  Km_Rate := 0
  Distance_km := 12
  Per_Diem_Total := 0
  Travel_Cost := 0
  Description := "Drive"

/-- A loaded travel row with a negative distance cell (`"-5"`). -/
def travelNegRaw : RawRow where
  Start := "2025-06-02"
  End := "2025-06-02"
  Event_Type := "travel"
  Work_Mode := "onsite"
  Remote_Type := "n/a"
  Per_Diem_Rate := some 0
  Km_Rate := some 0
  Distance_km := some (-5)
  Per_Diem_Total := some 0
  Travel_Cost := some 0
  Description := "trip"

/-- A row with an unrecognized event type and a non-blank user
description. -/
def vacationRow : Row where
  Start := "2025-06-03"
  End := "2025-06-04"
  Event_Type := "vacation"
  Work_Mode := "onsite"
  Remote_Type := "n/a"
  Per_Diem_Rate := 0
  Km_Rate := 0
  Distance_km := 0
  Per_Diem_Total := 0
  Travel_Cost := 0
  Description := "my holiday note"

/-- A loaded row whose `Start` does not parse and whose `Per_Diem_Total`
cell is unparsable as a number (`none`). -/
def badDateRaw : RawRow where
  Start := "junk"
  End := "2025-06-01"
  Event_Type := "work"
  Work_Mode := "remote"
  Remote_Type := "domestic"
  Per_Diem_Rate := some 3
  Km_Rate := some 0
  Distance_km := some 0
  Per_Diem_Total := none
  Travel_Cost := some 7
  Description := "keep"

/-- An onsite work row with a user-entered distance. -/
def onsiteRow : Row where
  Start := "2025-06-05"
  End := "2025-06-05"
  Event_Type := "work"
  Work_Mode := "onsite"
  Remote_Type := "domestic"
  Per_Diem_Rate := 0
  Km_Rate := 0
  Distance_km := 7
  Per_Diem_Total := 0
  Travel_Cost := 0
  Description := ""

/-- First of two loaded work rows sharing a `Start` (for stability of the
sort). -/
def rawWorkA : RawRow where
  Start := "2025-06-01"
  End := "2025-06-01"
  Event_Type := "work"
  Work_Mode := "onsite"
  Remote_Type := "n/a"
  Per_Diem_Rate := some 0
  Km_Rate := some 0
  Distance_km := some 0
  Per_Diem_Total := some 0
  Travel_Cost := some 0
  Description := "first"

/-- Second of two loaded work rows sharing a `Start`. -/
def rawWorkB : RawRow where
  Start := "2025-06-01"
  End := "2025-06-01"
  Event_Type := "work"
  Work_Mode := "onsite"
  Remote_Type := "n/a"
  Per_Diem_Rate := some 0
  Km_Rate := some 0
  Distance_km := some 0
  Per_Diem_Total := some 0
  Travel_Cost := some 0
  Description := "second"

/-- Pass-through of a loaded row: every output field carries exactly the
value the cell had on input.  For a numeric cell this requires the cell to
parse and the stored number to equal it — a cell that was unparsable on
input (`none`) cannot be "unchanged", since the table stores a number. -/
def unmodified (raw : RawRow) (out : Row) : Prop :=
  out.Start = raw.Start ∧ out.End = raw.End ∧
  out.Event_Type = raw.Event_Type ∧ out.Work_Mode = raw.Work_Mode ∧
  out.Remote_Type = raw.Remote_Type ∧ out.Description = raw.Description ∧
  raw.Per_Diem_Rate = some out.Per_Diem_Rate ∧
  raw.Km_Rate = some out.Km_Rate ∧
  raw.Distance_km = some out.Distance_km ∧
  raw.Per_Diem_Total = some out.Per_Diem_Total ∧
  raw.Travel_Cost = some out.Travel_Cost

/-! Helper lemmas shared by the claims. -/

/-- Blankness distributes over concatenation. -/
@[simp]
theorem isBlank_append (a b : String) :
    isBlank (a ++ b) = (isBlank a && isBlank b) := by
  simp [isBlank]

/-- The generated remote-work description prefix is not blank. -/
@[simp]
theorem isBlank_lit_remote : isBlank ("Remote work (") = false := by decide

/-- The generated onsite-work description contains the non-blank segment
`" work from "`. -/
@[simp]
theorem isBlank_lit_work : isBlank (" work from ") = false := by decide

/-- The generated travel description prefix is not blank. -/
@[simp]
theorem isBlank_lit_travel : isBlank ("Travel on ") = false := by decide

/-- The generated free description prefix is not blank. -/
@[simp]
theorem isBlank_lit_free : isBlank ("Free from ") = false := by decide

/-- Rounding an integer changes nothing. -/
theorem roundHalfEven_intCast (n : ℤ) : roundHalfEven (n : ℚ) = n := by
  unfold roundHalfEven
  norm_num

/-- Evaluation lemma for `round2` when the scaled value is an integer. -/
theorem round2_eq_intCast_div (q : ℚ) (n : ℤ) (h : q * 100 = (n : ℚ)) :
    round2 q = (n : ℚ) / 100 := by
  unfold round2
  rw [h, roundHalfEven_intCast]

/-- Round-half-to-even of a non-negative rational is non-negative. -/
theorem roundHalfEven_nonneg {x : ℚ} (h : 0 ≤ x) : 0 ≤ roundHalfEven x := by
  unfold roundHalfEven
  have hf : 0 ≤ ⌊x⌋ := Int.floor_nonneg.mpr h
  dsimp only
  split_ifs <;> omega

/-- Two-decimal rounding of a non-negative rational is non-negative. -/
theorem round2_nonneg {x : ℚ} (h : 0 ≤ x) : 0 ≤ round2 x := by
  unfold round2
  have := roundHalfEven_nonneg (x := x * 100) (by positivity)
  positivity

/-- The inclusive day count is floored at one. -/
theorem one_le_inclusiveDays (s e : PyDateTime) : 1 ≤ inclusiveDays s e := by
  unfold inclusiveDays
  dsimp only
  split <;> omega

/-- Derivation never touches the `Start` cell. -/
@[simp]
theorem deriveRow_Start (i f k : ℚ) (d : Int) (r : Row) :
    (deriveRow i f k d r).Start = r.Start := by
  unfold deriveRow workRemoteRow workOtherRow travelRow freeRow otherRow
  dsimp only
  split_ifs <;> rfl

/-- Derivation never touches the `End` cell. -/
@[simp]
theorem deriveRow_End (i f k : ℚ) (d : Int) (r : Row) :
    (deriveRow i f k d r).End = r.End := by
  unfold deriveRow workRemoteRow workOtherRow travelRow freeRow otherRow
  dsimp only
  split_ifs <;> rfl

/-- Rewriting lemma: with both dates parsed, the loop body is the branch
dispatch at the inclusive day count. -/
theorem recalcRow_parsed (i f k : ℚ) (r : Row) (sdt edt : PyDateTime)
    (hs : parse_datetime r.Start = some sdt)
    (he : parse_datetime r.End = some edt) :
    recalcRow i f k r = deriveRow i f k (inclusiveDays sdt edt) r := by
  unfold recalcRow
  rw [hs, he]

/-! Projection lemmas for the five branches (all definitional). -/

/-- Field `Start` of `workRemoteRow`. -/
@[simp]
theorem workRemoteRow_Start (i f : ℚ) (d : Int) (t : String) (r : Row) :
    (workRemoteRow i f d t r).Start = r.Start := rfl

/-- Field `End` of `workRemoteRow`. -/
@[simp]
theorem workRemoteRow_End (i f : ℚ) (d : Int) (t : String) (r : Row) :
    (workRemoteRow i f d t r).End = r.End := rfl

/-- Field `Event_Type` of `workRemoteRow`. -/
@[simp]
theorem workRemoteRow_Event_Type (i f : ℚ) (d : Int) (t : String) (r : Row) :
    (workRemoteRow i f d t r).Event_Type = r.Event_Type := rfl

/-- Field `Work_Mode` of `workRemoteRow`. -/
@[simp]
theorem workRemoteRow_Work_Mode (i f : ℚ) (d : Int) (t : String) (r : Row) :
    (workRemoteRow i f d t r).Work_Mode = r.Work_Mode := rfl

/-- Field `Remote_Type` of `workRemoteRow`. -/
@[simp]
theorem workRemoteRow_Remote_Type (i f : ℚ) (d : Int) (t : String) (r : Row) :
    (workRemoteRow i f d t r).Remote_Type = r.Remote_Type := rfl

/-- Field `Per_Diem_Rate` of `workRemoteRow`. -/
@[simp]
theorem workRemoteRow_Per_Diem_Rate (i f : ℚ) (d : Int) (t : String) (r : Row) :
    (workRemoteRow i f d t r).Per_Diem_Rate = (if t = "domestic" then i else if t = "foreign" then f else 0) := rfl

/-- Field `Per_Diem_Total` of `workRemoteRow`. -/
@[simp]
theorem workRemoteRow_Per_Diem_Total (i f : ℚ) (d : Int) (t : String) (r : Row) :
    (workRemoteRow i f d t r).Per_Diem_Total = round2 ((d : ℚ) * (if t = "domestic" then i else if t = "foreign" then f else 0)) := rfl

/-- Field `Km_Rate` of `workRemoteRow`. -/
@[simp]
theorem workRemoteRow_Km_Rate (i f : ℚ) (d : Int) (t : String) (r : Row) :
    (workRemoteRow i f d t r).Km_Rate = 0 := rfl

/-- Field `Distance_km` of `workRemoteRow`. -/
@[simp]
theorem workRemoteRow_Distance_km (i f : ℚ) (d : Int) (t : String) (r : Row) :
    (workRemoteRow i f d t r).Distance_km = 0 := rfl

/-- Field `Travel_Cost` of `workRemoteRow`. -/
@[simp]
theorem workRemoteRow_Travel_Cost (i f : ℚ) (d : Int) (t : String) (r : Row) :
    (workRemoteRow i f d t r).Travel_Cost = 0 := rfl

/-- Field `Description` of `workRemoteRow`. -/
@[simp]
theorem workRemoteRow_Description (i f : ℚ) (d : Int) (t : String) (r : Row) :
    (workRemoteRow i f d t r).Description = (if isBlank r.Description then "Remote work (" ++ t ++ ") from " ++ r.Start ++ " to " ++ r.End else r.Description) := rfl

/-- Field `Start` of `workOtherRow`. -/
@[simp]
theorem workOtherRow_Start (w : String) (r : Row) :
    (workOtherRow w r).Start = r.Start := rfl

/-- Field `End` of `workOtherRow`. -/
@[simp]
theorem workOtherRow_End (w : String) (r : Row) :
    (workOtherRow w r).End = r.End := rfl

/-- Field `Event_Type` of `workOtherRow`. -/
@[simp]
theorem workOtherRow_Event_Type (w : String) (r : Row) :
    (workOtherRow w r).Event_Type = r.Event_Type := rfl

/-- Field `Work_Mode` of `workOtherRow`. -/
@[simp]
theorem workOtherRow_Work_Mode (w : String) (r : Row) :
    (workOtherRow w r).Work_Mode = r.Work_Mode := rfl

/-- Field `Remote_Type` of `workOtherRow`. -/
@[simp]
theorem workOtherRow_Remote_Type (w : String) (r : Row) :
    (workOtherRow w r).Remote_Type = "n/a" := rfl

/-- Field `Per_Diem_Rate` of `workOtherRow`. -/
@[simp]
theorem workOtherRow_Per_Diem_Rate (w : String) (r : Row) :
    (workOtherRow w r).Per_Diem_Rate = 0 := rfl

/-- Field `Per_Diem_Total` of `workOtherRow`. -/
@[simp]
theorem workOtherRow_Per_Diem_Total (w : String) (r : Row) :
    (workOtherRow w r).Per_Diem_Total = 0 := rfl

/-- Field `Km_Rate` of `workOtherRow`. -/
@[simp]
theorem workOtherRow_Km_Rate (w : String) (r : Row) :
    (workOtherRow w r).Km_Rate = 0 := rfl

/-- Field `Distance_km` of `workOtherRow`. -/
@[simp]
theorem workOtherRow_Distance_km (w : String) (r : Row) :
    (workOtherRow w r).Distance_km = 0 := rfl

/-- Field `Travel_Cost` of `workOtherRow`. -/
@[simp]
theorem workOtherRow_Travel_Cost (w : String) (r : Row) :
    (workOtherRow w r).Travel_Cost = 0 := rfl

/-- Field `Description` of `workOtherRow`. -/
@[simp]
theorem workOtherRow_Description (w : String) (r : Row) :
    (workOtherRow w r).Description = (if isBlank r.Description then pyTitle w ++ " work from " ++ r.Start ++ " to " ++ r.End else r.Description) := rfl

/-- Field `Start` of `travelRow`. -/
@[simp]
theorem travelRow_Start (k : ℚ) (w t : String) (r : Row) :
    (travelRow k w t r).Start = r.Start := rfl

/-- Field `End` of `travelRow`. -/
@[simp]
theorem travelRow_End (k : ℚ) (w t : String) (r : Row) :
    (travelRow k w t r).End = r.End := rfl

/-- Field `Event_Type` of `travelRow`. -/
@[simp]
theorem travelRow_Event_Type (k : ℚ) (w t : String) (r : Row) :
    (travelRow k w t r).Event_Type = r.Event_Type := rfl

/-- Field `Work_Mode` of `travelRow`. -/
@[simp]
theorem travelRow_Work_Mode (k : ℚ) (w t : String) (r : Row) :
    (travelRow k w t r).Work_Mode = (if w = "onsite" ∨ w = "remote" then r.Work_Mode else "remote") := rfl

/-- Field `Remote_Type` of `travelRow`. -/
@[simp]
theorem travelRow_Remote_Type (k : ℚ) (w t : String) (r : Row) :
    (travelRow k w t r).Remote_Type = (if t = "" then "n/a" else r.Remote_Type) := rfl

/-- Field `Per_Diem_Rate` of `travelRow`. -/
@[simp]
theorem travelRow_Per_Diem_Rate (k : ℚ) (w t : String) (r : Row) :
    (travelRow k w t r).Per_Diem_Rate = 0 := rfl

/-- Field `Per_Diem_Total` of `travelRow`. -/
@[simp]
theorem travelRow_Per_Diem_Total (k : ℚ) (w t : String) (r : Row) :
    (travelRow k w t r).Per_Diem_Total = 0 := rfl

/-- Field `Km_Rate` of `travelRow`. -/
@[simp]
theorem travelRow_Km_Rate (k : ℚ) (w t : String) (r : Row) :
    (travelRow k w t r).Km_Rate = k := rfl

/-- Field `Distance_km` of `travelRow`. -/
@[simp]
theorem travelRow_Distance_km (k : ℚ) (w t : String) (r : Row) :
    (travelRow k w t r).Distance_km = r.Distance_km := rfl

/-- Field `Travel_Cost` of `travelRow`. -/
@[simp]
theorem travelRow_Travel_Cost (k : ℚ) (w t : String) (r : Row) :
    (travelRow k w t r).Travel_Cost = round2 ((if r.Distance_km < 0 then (0 : ℚ) else r.Distance_km) * k) := rfl

/-- Field `Description` of `travelRow`. -/
@[simp]
theorem travelRow_Description (k : ℚ) (w t : String) (r : Row) :
    (travelRow k w t r).Description = (if isBlank r.Description then "Travel on " ++ r.Start ++ " covering " ++ pyFloatRepr (if r.Distance_km < 0 then (0 : ℚ) else r.Distance_km) ++ " km" else r.Description) := rfl

/-- Field `Start` of `freeRow`. -/
@[simp]
theorem freeRow_Start (r : Row) :
    (freeRow  r).Start = r.Start := rfl

/-- Field `End` of `freeRow`. -/
@[simp]
theorem freeRow_End (r : Row) :
    (freeRow  r).End = r.End := rfl

/-- Field `Event_Type` of `freeRow`. -/
@[simp]
theorem freeRow_Event_Type (r : Row) :
    (freeRow  r).Event_Type = r.Event_Type := rfl

/-- Field `Work_Mode` of `freeRow`. -/
@[simp]
theorem freeRow_Work_Mode (r : Row) :
    (freeRow  r).Work_Mode = "free" := rfl

/-- Field `Remote_Type` of `freeRow`. -/
@[simp]
theorem freeRow_Remote_Type (r : Row) :
    (freeRow  r).Remote_Type = "n/a" := rfl

/-- Field `Per_Diem_Rate` of `freeRow`. -/
@[simp]
theorem freeRow_Per_Diem_Rate (r : Row) :
    (freeRow  r).Per_Diem_Rate = 0 := rfl

/-- Field `Per_Diem_Total` of `freeRow`. -/
@[simp]
theorem freeRow_Per_Diem_Total (r : Row) :
    (freeRow  r).Per_Diem_Total = 0 := rfl

/-- Field `Km_Rate` of `freeRow`. -/
@[simp]
theorem freeRow_Km_Rate (r : Row) :
    (freeRow  r).Km_Rate = 0 := rfl

/-- Field `Distance_km` of `freeRow`. -/
@[simp]
theorem freeRow_Distance_km (r : Row) :
    (freeRow  r).Distance_km = 0 := rfl

/-- Field `Travel_Cost` of `freeRow`. -/
@[simp]
theorem freeRow_Travel_Cost (r : Row) :
    (freeRow  r).Travel_Cost = 0 := rfl

/-- Field `Description` of `freeRow`. -/
@[simp]
theorem freeRow_Description (r : Row) :
    (freeRow  r).Description = (if isBlank r.Description then "Free from " ++ r.Start ++ " to " ++ r.End else r.Description) := rfl

/-- Field `Start` of `otherRow`. -/
@[simp]
theorem otherRow_Start (r : Row) :
    (otherRow  r).Start = r.Start := rfl

/-- Field `End` of `otherRow`. -/
@[simp]
theorem otherRow_End (r : Row) :
    (otherRow  r).End = r.End := rfl

/-- Field `Event_Type` of `otherRow`. -/
@[simp]
theorem otherRow_Event_Type (r : Row) :
    (otherRow  r).Event_Type = "free" := rfl

/-- Field `Work_Mode` of `otherRow`. -/
@[simp]
theorem otherRow_Work_Mode (r : Row) :
    (otherRow  r).Work_Mode = "free" := rfl

/-- Field `Remote_Type` of `otherRow`. -/
@[simp]
theorem otherRow_Remote_Type (r : Row) :
    (otherRow  r).Remote_Type = "n/a" := rfl

/-- Field `Per_Diem_Rate` of `otherRow`. -/
@[simp]
theorem otherRow_Per_Diem_Rate (r : Row) :
    (otherRow  r).Per_Diem_Rate = 0 := rfl

/-- Field `Per_Diem_Total` of `otherRow`. -/
@[simp]
theorem otherRow_Per_Diem_Total (r : Row) :
    (otherRow  r).Per_Diem_Total = 0 := rfl

/-- Field `Km_Rate` of `otherRow`. -/
@[simp]
theorem otherRow_Km_Rate (r : Row) :
    (otherRow  r).Km_Rate = 0 := rfl

/-- Field `Distance_km` of `otherRow`. -/
@[simp]
theorem otherRow_Distance_km (r : Row) :
    (otherRow  r).Distance_km = 0 := rfl

/-- Field `Travel_Cost` of `otherRow`. -/
@[simp]
theorem otherRow_Travel_Cost (r : Row) :
    (otherRow  r).Travel_Cost = 0 := rfl

/-- Field `Description` of `otherRow`. -/
@[simp]
theorem otherRow_Description (r : Row) :
    (otherRow  r).Description = ("Free from " ++ r.Start ++ " to " ++ r.End) := rfl

/-! Branch-dispatch lemmas for `deriveRow`. -/

/-- Dispatch: normalized `work`/`remote` rows take the remote branch. -/
theorem deriveRow_eq_workRemote (i f k : ℚ) (d : Int) (r : Row)
    (hW : normTag r.Event_Type = "work")
    (hM : normTag r.Work_Mode = "remote") :
    deriveRow i f k d r = workRemoteRow i f d (normTag r.Remote_Type) r := by
  unfold deriveRow
  dsimp only
  rw [if_pos hW, if_pos hM]

/-- Dispatch: normalized `work` rows with any other work mode take the
onsite branch. -/
theorem deriveRow_eq_workOther (i f k : ℚ) (d : Int) (r : Row)
    (hW : normTag r.Event_Type = "work")
    (hM : ¬ normTag r.Work_Mode = "remote") :
    deriveRow i f k d r = workOtherRow (normTag r.Work_Mode) r := by
  unfold deriveRow
  dsimp only
  rw [if_pos hW, if_neg hM]

/-- Dispatch: normalized `travel` rows take the travel branch. -/
theorem deriveRow_eq_travel (i f k : ℚ) (d : Int) (r : Row)
    (hT : normTag r.Event_Type = "travel") :
    deriveRow i f k d r
      = travelRow k (normTag r.Work_Mode) (normTag r.Remote_Type) r := by
  unfold deriveRow
  dsimp only
  rw [if_neg (by rw [hT]; decide), if_pos hT]

/-- Dispatch: normalized `free` rows take the free branch. -/
theorem deriveRow_eq_free (i f k : ℚ) (d : Int) (r : Row)
    (hF : normTag r.Event_Type = "free") :
    deriveRow i f k d r = freeRow r := by
  unfold deriveRow
  dsimp only
  rw [if_neg (by rw [hF]; decide), if_neg (by rw [hF]; decide), if_pos hF]

/-- Dispatch: any other event type takes the reset branch. -/
theorem deriveRow_eq_other (i f k : ℚ) (d : Int) (r : Row)
    (hW : ¬ normTag r.Event_Type = "work")
    (hT : ¬ normTag r.Event_Type = "travel")
    (hF : ¬ normTag r.Event_Type = "free") :
    deriveRow i f k d r = otherRow r := by
  unfold deriveRow
  dsimp only
  rw [if_neg hW, if_neg hT, if_neg hF]

/-! Idempotence of each branch. -/

/-- The remote-work branch is idempotent. -/
theorem workRemoteRow_idem (i f : ℚ) (d : Int) (t : String) (r : Row) :
    workRemoteRow i f d t (workRemoteRow i f d t r) = workRemoteRow i f d t r := by
  cases hB : isBlank r.Description <;>
    · apply Row.ext <;> simp [hB]

/-- The onsite-work branch is idempotent. -/
theorem workOtherRow_idem (w : String) (r : Row) :
    workOtherRow w (workOtherRow w r) = workOtherRow w r := by
  cases hB : isBlank r.Description <;>
    · apply Row.ext <;> simp [hB]

/-- Normalisation fixes the literal `remote`. -/
@[simp]
theorem normTag_remote_lit : normTag ("remote") = "remote" := by decide

/-- Normalisation fixes the literal `n/a`. -/
@[simp]
theorem normTag_na_lit : normTag ("n/a") = "n/a" := by decide

/-- Normalisation fixes the literal `free`. -/
@[simp]
theorem normTag_free_lit : normTag ("free") = "free" := by decide

/-- The travel branch is idempotent when re-dispatched on the updated
tags. -/
theorem travelRow_idem (k : ℚ) (r : Row) :
    travelRow k
        (normTag (travelRow k (normTag r.Work_Mode) (normTag r.Remote_Type) r).Work_Mode)
        (normTag (travelRow k (normTag r.Work_Mode) (normTag r.Remote_Type) r).Remote_Type)
        (travelRow k (normTag r.Work_Mode) (normTag r.Remote_Type) r)
      = travelRow k (normTag r.Work_Mode) (normTag r.Remote_Type) r := by
  by_cases hw : normTag r.Work_Mode = "onsite" ∨ normTag r.Work_Mode = "remote" <;>
    by_cases ht : normTag r.Remote_Type = "" <;>
      cases hB : isBlank r.Description <;>
        · apply Row.ext <;> simp [hw, ht, hB]

/-- The free branch is idempotent. -/
theorem freeRow_idem (r : Row) : freeRow (freeRow r) = freeRow r := by
  cases hB : isBlank r.Description <;>
    · apply Row.ext <;> simp [hB]

/-- Applying the free branch to a reset row changes nothing. -/
theorem otherRow_then_free (r : Row) : freeRow (otherRow r) = otherRow r := by
  apply Row.ext <;> simp

/-- The branch dispatch is idempotent (the heart of the idempotence of the
derivation engine). -/
theorem deriveRow_idem (i f k : ℚ) (d : Int) (r : Row) :
    deriveRow i f k d (deriveRow i f k d r) = deriveRow i f k d r := by
  by_cases hW : normTag r.Event_Type = "work"
  · by_cases hM : normTag r.Work_Mode = "remote"
    · rw [deriveRow_eq_workRemote i f k d r hW hM]
      rw [deriveRow_eq_workRemote i f k d _ (by simp [hW]) (by simp [hM])]
      rw [workRemoteRow_Remote_Type]
      exact workRemoteRow_idem i f d (normTag r.Remote_Type) r
    · rw [deriveRow_eq_workOther i f k d r hW hM]
      rw [deriveRow_eq_workOther i f k d _ (by simp [hW]) (by simp [hM])]
      rw [workOtherRow_Work_Mode]
      exact workOtherRow_idem (normTag r.Work_Mode) r
  · by_cases hT : normTag r.Event_Type = "travel"
    · rw [deriveRow_eq_travel i f k d r hT]
      rw [deriveRow_eq_travel i f k d _ (by simp [hT])]
      exact travelRow_idem k r
    · by_cases hF : normTag r.Event_Type = "free"
      · rw [deriveRow_eq_free i f k d r hF]
        rw [deriveRow_eq_free i f k d _ (by simp [hF])]
        exact freeRow_idem r
      · rw [deriveRow_eq_other i f k d r hW hT hF]
        rw [deriveRow_eq_free i f k d _ (by simp)]
        exact otherRow_then_free r

/-! Claim theorems. -/

/-- C1: for every row the derivation engine derives (both of its dates
parse), at most one of `Per_Diem_Total` and `Travel_Cost` is non-zero
afterwards — a positive per-diem total forces a zero travel cost and a
positive travel cost forces a zero per-diem total — and a row whose
normalized event type is `free` after derivation has both at zero. -/
theorem C1_mutual_exclusivity (i f k : ℚ) (r : Row) (sdt edt : PyDateTime)
    (hs : parse_datetime r.Start = some sdt)
    (he : parse_datetime r.End = some edt) :
    ((recalcRow i f k r).Per_Diem_Total > 0 → (recalcRow i f k r).Travel_Cost = 0) ∧
    ((recalcRow i f k r).Travel_Cost > 0 → (recalcRow i f k r).Per_Diem_Total = 0) ∧
    (normTag (recalcRow i f k r).Event_Type = "free" →
      (recalcRow i f k r).Per_Diem_Total = 0 ∧ (recalcRow i f k r).Travel_Cost = 0) := by
  rw [recalcRow_parsed i f k r sdt edt hs he]
  by_cases hW : normTag r.Event_Type = "work"
  · by_cases hM : normTag r.Work_Mode = "remote"
    · rw [deriveRow_eq_workRemote i f k (inclusiveDays sdt edt) r hW hM]
      refine ⟨?_, ?_, ?_⟩ <;> simp [hW]
    · rw [deriveRow_eq_workOther i f k (inclusiveDays sdt edt) r hW hM]
      refine ⟨?_, ?_, ?_⟩ <;> simp
  · by_cases hT : normTag r.Event_Type = "travel"
    · rw [deriveRow_eq_travel i f k (inclusiveDays sdt edt) r hT]
      refine ⟨?_, ?_, ?_⟩ <;> simp [hT]
    · by_cases hF : normTag r.Event_Type = "free"
      · rw [deriveRow_eq_free i f k (inclusiveDays sdt edt) r hF]
        refine ⟨?_, ?_, ?_⟩ <;> simp
      · rw [deriveRow_eq_other i f k (inclusiveDays sdt edt) r hW hT hF]
        refine ⟨?_, ?_, ?_⟩ <;> simp

/-- C1 witness: the mutual-exclusivity conjunction at a concrete travel
row with parsable dates. -/
theorem C1_mutual_exclusivity_witness :
    ((recalcRow 14 28 (3/10) travelOnsiteRow).Per_Diem_Total > 0 →
      (recalcRow 14 28 (3/10) travelOnsiteRow).Travel_Cost = 0) ∧
    ((recalcRow 14 28 (3/10) travelOnsiteRow).Travel_Cost > 0 →
      (recalcRow 14 28 (3/10) travelOnsiteRow).Per_Diem_Total = 0) ∧
    (normTag (recalcRow 14 28 (3/10) travelOnsiteRow).Event_Type = "free" →
      (recalcRow 14 28 (3/10) travelOnsiteRow).Per_Diem_Total = 0 ∧
      (recalcRow 14 28 (3/10) travelOnsiteRow).Travel_Cost = 0) :=
  C1_mutual_exclusivity 14 28 (3/10) travelOnsiteRow
    ⟨2025, 6, 1, 8, 0⟩ ⟨2025, 6, 1, 10, 0⟩ (by decide) (by decide)

/-- C2: the derivation engine is idempotent on any row whose dates parse:
a second pass with the same rates reproduces the first pass exactly, all
fields included (the description is only set when blank, and after the
first pass it never is). -/
theorem C2_derivation_idempotent (i f k : ℚ) (r : Row) (sdt edt : PyDateTime)
    (hs : parse_datetime r.Start = some sdt)
    (he : parse_datetime r.End = some edt) :
    recalcRow i f k (recalcRow i f k r) = recalcRow i f k r := by
  rw [recalcRow_parsed i f k r sdt edt hs he]
  rw [recalcRow_parsed i f k _ sdt edt (by simpa using hs) (by simpa using he)]
  exact deriveRow_idem i f k (inclusiveDays sdt edt) r

/-- C2 witness: idempotence at the concrete remote-work example row. -/
theorem C2_derivation_idempotent_witness :
    recalcRow 14 28 (3/10) (recalcRow 14 28 (3/10) exampleRemoteRow)
      = recalcRow 14 28 (3/10) exampleRemoteRow :=
  C2_derivation_idempotent 14 28 (3/10) exampleRemoteRow
    ⟨2025, 6, 1, 0, 0⟩ ⟨2025, 6, 1, 0, 0⟩ (by decide) (by decide)

/-- C10: on a work row whose work mode is not `remote` (onsite for
example), derivation zeroes the stored `Distance_km` — overwriting a
user-entered distance even though the branch computes no travel cost. -/
theorem C10_work_nonremote_zeroes_distance (i f k : ℚ) (r : Row)
    (sdt edt : PyDateTime)
    (hs : parse_datetime r.Start = some sdt)
    (he : parse_datetime r.End = some edt)
    (hW : normTag r.Event_Type = "work")
    (hM : ¬ normTag r.Work_Mode = "remote") :
    (recalcRow i f k r).Distance_km = 0 := by
  rw [recalcRow_parsed i f k r sdt edt hs he]
  rw [deriveRow_eq_workOther i f k (inclusiveDays sdt edt) r hW hM]
  simp

/-- C10 witness: the onsite work row entered with `Distance_km = 7` comes
out with `Distance_km = 0`. -/
theorem C10_work_nonremote_zeroes_distance_witness :
    onsiteRow.Distance_km = 7 ∧ (recalcRow 14 28 (3/10) onsiteRow).Distance_km = 0 :=
  ⟨rfl, C10_work_nonremote_zeroes_distance 14 28 (3/10) onsiteRow
    ⟨2025, 6, 5, 0, 0⟩ ⟨2025, 6, 5, 0, 0⟩ (by decide) (by decide) (by decide) (by decide)⟩

/-- C5 counterexample: the derived travel row with `Work_Mode = onsite`
and `Remote_Type = domestic` keeps a `Remote_Type` different from `n/a`
although its work mode is not `remote`. -/
theorem C5_counterexample :
    ¬ normTag (recalcRow 14 28 (3/10) travelOnsiteRow).Work_Mode = "remote" ∧
    ¬ (recalcRow 14 28 (3/10) travelOnsiteRow).Remote_Type = "n/a" ∧
    (recalcRow 14 28 (3/10) travelOnsiteRow).Work_Mode = "onsite" ∧
    (recalcRow 14 28 (3/10) travelOnsiteRow).Remote_Type = "domestic" := by
  decide

/-- C5 (amended): after derivation of a row with parsable dates,
`Remote_Type` is forced to `n/a` on `work` rows with a non-`remote` work
mode and on `free` (or coerced-`free`) rows; on `travel` rows it is set to
`n/a` only when blank, and otherwise kept as entered — even when the work
mode is `onsite`. -/
theorem C5_remote_type_normalisation (i f k : ℚ) (r : Row)
    (sdt edt : PyDateTime)
    (hs : parse_datetime r.Start = some sdt)
    (he : parse_datetime r.End = some edt) :
    (normTag r.Event_Type = "work" → ¬ normTag r.Work_Mode = "remote" →
      (recalcRow i f k r).Remote_Type = "n/a") ∧
    (¬ normTag r.Event_Type = "work" → ¬ normTag r.Event_Type = "travel" →
      (recalcRow i f k r).Remote_Type = "n/a") ∧
    (normTag r.Event_Type = "travel" → normTag r.Remote_Type = "" →
      (recalcRow i f k r).Remote_Type = "n/a") ∧
    (normTag r.Event_Type = "travel" → ¬ normTag r.Remote_Type = "" →
      (recalcRow i f k r).Remote_Type = r.Remote_Type) := by
  rw [recalcRow_parsed i f k r sdt edt hs he]
  refine ⟨?_, ?_, ?_, ?_⟩
  · intro hW hM
    rw [deriveRow_eq_workOther i f k (inclusiveDays sdt edt) r hW hM]
    simp
  · intro hW hT
    by_cases hF : normTag r.Event_Type = "free"
    · rw [deriveRow_eq_free i f k (inclusiveDays sdt edt) r hF]
      simp
    · rw [deriveRow_eq_other i f k (inclusiveDays sdt edt) r hW hT hF]
      simp
  · intro hT hE
    rw [deriveRow_eq_travel i f k (inclusiveDays sdt edt) r hT]
    simp [hE]
  · intro hT hE
    rw [deriveRow_eq_travel i f k (inclusiveDays sdt edt) r hT]
    simp [hE]

/-- C5 witness: the amended normalisation at the concrete onsite travel
row. -/
theorem C5_remote_type_normalisation_witness :
    (normTag travelOnsiteRow.Event_Type = "work" →
      ¬ normTag travelOnsiteRow.Work_Mode = "remote" →
      (recalcRow 14 28 (3/10) travelOnsiteRow).Remote_Type = "n/a") ∧
    (¬ normTag travelOnsiteRow.Event_Type = "work" →
      ¬ normTag travelOnsiteRow.Event_Type = "travel" →
      (recalcRow 14 28 (3/10) travelOnsiteRow).Remote_Type = "n/a") ∧
    (normTag travelOnsiteRow.Event_Type = "travel" →
      normTag travelOnsiteRow.Remote_Type = "" →
      (recalcRow 14 28 (3/10) travelOnsiteRow).Remote_Type = "n/a") ∧
    (normTag travelOnsiteRow.Event_Type = "travel" →
      ¬ normTag travelOnsiteRow.Remote_Type = "" →
      (recalcRow 14 28 (3/10) travelOnsiteRow).Remote_Type
        = travelOnsiteRow.Remote_Type) :=
  C5_remote_type_normalisation 14 28 (3/10) travelOnsiteRow
    ⟨2025, 6, 1, 8, 0⟩ ⟨2025, 6, 1, 10, 0⟩ (by decide) (by decide)

/-- C6 counterexample: a row with an unrecognized event type and a
non-blank user description has its description overwritten. -/
theorem C6_counterexample :
    isBlank vacationRow.Description = false ∧
    ¬ (recalcRow 14 28 (3/10) vacationRow).Description
      = vacationRow.Description := by
  decide

/-- C6 (amended): on a row with parsable dates and a non-blank
description, derivation preserves the description for the recognized event
types (`work`, `travel`, `free`, in any casing); a row with an
unrecognized event type is reset to a free placeholder and its description
is overwritten unconditionally. -/
theorem C6_description_preservation (i f k : ℚ) (r : Row)
    (sdt edt : PyDateTime)
    (hs : parse_datetime r.Start = some sdt)
    (he : parse_datetime r.End = some edt)
    (hNB : isBlank r.Description = false) :
    ((normTag r.Event_Type = "work" ∨ normTag r.Event_Type = "travel" ∨
        normTag r.Event_Type = "free") →
      (recalcRow i f k r).Description = r.Description) ∧
    (¬ (normTag r.Event_Type = "work" ∨ normTag r.Event_Type = "travel" ∨
        normTag r.Event_Type = "free") →
      (recalcRow i f k r).Description
        = "Free from " ++ r.Start ++ " to " ++ r.End) := by
  rw [recalcRow_parsed i f k r sdt edt hs he]
  constructor
  · rintro (hW | hT | hF)
    · by_cases hM : normTag r.Work_Mode = "remote"
      · rw [deriveRow_eq_workRemote i f k (inclusiveDays sdt edt) r hW hM]
        simp [hNB]
      · rw [deriveRow_eq_workOther i f k (inclusiveDays sdt edt) r hW hM]
        simp [hNB]
    · rw [deriveRow_eq_travel i f k (inclusiveDays sdt edt) r hT]
      simp [hNB]
    · rw [deriveRow_eq_free i f k (inclusiveDays sdt edt) r hF]
      simp [hNB]
  · intro h
    push_neg at h
    obtain ⟨hW, hT, hF⟩ := h
    rw [deriveRow_eq_other i f k (inclusiveDays sdt edt) r hW hT hF]
    simp

/-- C6 witness: the amended description behaviour at the concrete
unrecognized-type row. -/
theorem C6_description_preservation_witness :
    ((normTag vacationRow.Event_Type = "work" ∨
        normTag vacationRow.Event_Type = "travel" ∨
        normTag vacationRow.Event_Type = "free") →
      (recalcRow 14 28 (3/10) vacationRow).Description
        = vacationRow.Description) ∧
    (¬ (normTag vacationRow.Event_Type = "work" ∨
        normTag vacationRow.Event_Type = "travel" ∨
        normTag vacationRow.Event_Type = "free") →
      (recalcRow 14 28 (3/10) vacationRow).Description
        = "Free from " ++ vacationRow.Start ++ " to " ++ vacationRow.End) :=
  C6_description_preservation 14 28 (3/10) vacationRow
    ⟨2025, 6, 3, 0, 0⟩ ⟨2025, 6, 4, 0, 0⟩ (by decide) (by decide) (by decide)

/-- C7: on a row with parsable dates, normalized event type `work` and
work mode `remote`, derivation sets the per-diem rate from the remote type
(`domestic` → inland rate, `foreign` → foreign rate, else `0`), sets the
per-diem total to `round2` of the inclusive day count (floored at one)
times that rate, zeroes `Km_Rate`, `Distance_km` and `Travel_Cost`; and at
the documented example (domestic, start = end = 2025-06-01, inland rate
14) the total is 14.00, the travel cost 0.0 and the blank description
becomes `Remote work (domestic) from 2025-06-01 to 2025-06-01`. -/
theorem C7_work_remote_formula (i f k : ℚ) (r : Row) (sdt edt : PyDateTime)
    (hs : parse_datetime r.Start = some sdt)
    (he : parse_datetime r.End = some edt)
    (hW : normTag r.Event_Type = "work")
    (hM : normTag r.Work_Mode = "remote") :
    (1 ≤ inclusiveDays sdt edt ∧
      (recalcRow i f k r).Per_Diem_Rate
        = (if normTag r.Remote_Type = "domestic" then i
           else if normTag r.Remote_Type = "foreign" then f else 0) ∧
      (recalcRow i f k r).Per_Diem_Total
        = round2 ((inclusiveDays sdt edt : ℚ) *
            (if normTag r.Remote_Type = "domestic" then i
             else if normTag r.Remote_Type = "foreign" then f else 0)) ∧
      (recalcRow i f k r).Km_Rate = 0 ∧
      (recalcRow i f k r).Distance_km = 0 ∧
      (recalcRow i f k r).Travel_Cost = 0) ∧
    ((recalcRow 14 28 (3/10) exampleRemoteRow).Per_Diem_Total = 14 ∧
      (recalcRow 14 28 (3/10) exampleRemoteRow).Travel_Cost = 0 ∧
      (recalcRow 14 28 (3/10) exampleRemoteRow).Description
        = "Remote work (domestic) from 2025-06-01 to 2025-06-01") := by
  constructor
  · rw [recalcRow_parsed i f k r sdt edt hs he,
        deriveRow_eq_workRemote i f k (inclusiveDays sdt edt) r hW hM]
    exact ⟨one_le_inclusiveDays sdt edt, rfl, rfl, rfl, rfl, rfl⟩
  · refine ⟨?_, ?_, ?_⟩
    · rw [recalcRow_parsed 14 28 (3/10) exampleRemoteRow
          ⟨2025, 6, 1, 0, 0⟩ ⟨2025, 6, 1, 0, 0⟩ (by decide) (by decide),
        deriveRow_eq_workRemote 14 28 (3/10) _ exampleRemoteRow
          (by decide) (by decide),
        workRemoteRow_Per_Diem_Total,
        if_pos (by decide : normTag exampleRemoteRow.Remote_Type = "domestic"),
        round2_eq_intCast_div _ 1400 (by norm_num [inclusiveDays])]
      norm_num
    · decide
    · decide

/-- C7 witness: the formula instantiated at the concrete remote-domestic
example row. -/
theorem C7_work_remote_formula_witness :
    (recalcRow 14 28 (3/10) exampleRemoteRow).Per_Diem_Rate = 14 ∧
    (recalcRow 14 28 (3/10) exampleRemoteRow).Per_Diem_Total = 14 := by
  have h := C7_work_remote_formula 14 28 (3/10) exampleRemoteRow
    ⟨2025, 6, 1, 0, 0⟩ ⟨2025, 6, 1, 0, 0⟩ (by decide) (by decide)
    (by decide) (by decide)
  refine ⟨?_, h.2.1⟩
  rw [h.1.2.1, if_pos (by decide : normTag exampleRemoteRow.Remote_Type = "domestic")]

/-- C4 counterexample: a travel row loaded with distance `-5` keeps the
negative value in the stored `Distance_km` after derivation — the clamp
applies only to the local used for the travel cost, not to the cell. -/
theorem C4_counterexample :
    (processRow 14 28 (3/10) travelNegRaw).Distance_km = -5 ∧
    (processRow 14 28 (3/10) travelNegRaw).Distance_km < 0 := by
  exact ⟨rfl, by decide⟩

/-- C4 (amended): after derivation of a row with parsable dates, given
non-negative configured rates, `Per_Diem_Rate`, `Km_Rate`,
`Per_Diem_Total` and `Travel_Cost` are non-negative; `Distance_km` is
zeroed on every non-`travel` row, but on a `travel` row it keeps the
input value — which may be negative, since the clamp is applied only to
the travel-cost computation; and an unparsable numeric input cell is
coerced to `0.0` before derivation. -/
theorem C4_nonneg_after_derivation (i f k : ℚ) (r : Row)
    (sdt edt : PyDateTime)
    (hs : parse_datetime r.Start = some sdt)
    (he : parse_datetime r.End = some edt)
    (hi : 0 ≤ i) (hf : 0 ≤ f) (hk : 0 ≤ k) :
    0 ≤ (recalcRow i f k r).Per_Diem_Rate ∧
    0 ≤ (recalcRow i f k r).Km_Rate ∧
    0 ≤ (recalcRow i f k r).Per_Diem_Total ∧
    0 ≤ (recalcRow i f k r).Travel_Cost ∧
    (¬ normTag r.Event_Type = "travel" → (recalcRow i f k r).Distance_km = 0) ∧
    (normTag r.Event_Type = "travel" →
      (recalcRow i f k r).Distance_km = r.Distance_km) ∧
    (∀ raw : RawRow, raw.Per_Diem_Rate = none → (coerceRow raw).Per_Diem_Rate = 0) ∧
    (∀ raw : RawRow, raw.Km_Rate = none → (coerceRow raw).Km_Rate = 0) ∧
    (∀ raw : RawRow, raw.Distance_km = none → (coerceRow raw).Distance_km = 0) ∧
    (∀ raw : RawRow, raw.Per_Diem_Total = none → (coerceRow raw).Per_Diem_Total = 0) ∧
    (∀ raw : RawRow, raw.Travel_Cost = none → (coerceRow raw).Travel_Cost = 0) := by
  rw [recalcRow_parsed i f k r sdt edt hs he]
  have hdays : (0 : ℚ) ≤ ((inclusiveDays sdt edt : Int) : ℚ) := by
    have h1 := one_le_inclusiveDays sdt edt
    exact_mod_cast le_trans (by norm_num) h1
  have hcoerce :
      (∀ raw : RawRow, raw.Per_Diem_Rate = none → (coerceRow raw).Per_Diem_Rate = 0) ∧
      (∀ raw : RawRow, raw.Km_Rate = none → (coerceRow raw).Km_Rate = 0) ∧
      (∀ raw : RawRow, raw.Distance_km = none → (coerceRow raw).Distance_km = 0) ∧
      (∀ raw : RawRow, raw.Per_Diem_Total = none → (coerceRow raw).Per_Diem_Total = 0) ∧
      (∀ raw : RawRow, raw.Travel_Cost = none → (coerceRow raw).Travel_Cost = 0) := by
    refine ⟨?_, ?_, ?_, ?_, ?_⟩ <;> · intro raw h; simp [coerceRow, h]
  by_cases hW : normTag r.Event_Type = "work"
  · have hnt : ¬ normTag r.Event_Type = "travel" := by rw [hW]; decide
    by_cases hM : normTag r.Work_Mode = "remote"
    · rw [deriveRow_eq_workRemote i f k (inclusiveDays sdt edt) r hW hM]
      refine ⟨?_, by simp, ?_, by simp, fun _ => by simp,
        fun h => absurd h hnt, hcoerce.1, hcoerce.2.1, hcoerce.2.2.1,
        hcoerce.2.2.2.1, hcoerce.2.2.2.2⟩
      · rw [workRemoteRow_Per_Diem_Rate]
        split_ifs <;> simp [hi, hf]
      · rw [workRemoteRow_Per_Diem_Total]
        apply round2_nonneg
        apply mul_nonneg hdays
        split_ifs <;> simp [hi, hf]
    · rw [deriveRow_eq_workOther i f k (inclusiveDays sdt edt) r hW hM]
      exact ⟨by simp, by simp, by simp, by simp, fun _ => by simp,
        fun h => absurd h hnt, hcoerce.1, hcoerce.2.1, hcoerce.2.2.1,
        hcoerce.2.2.2.1, hcoerce.2.2.2.2⟩
  · by_cases hT : normTag r.Event_Type = "travel"
    · rw [deriveRow_eq_travel i f k (inclusiveDays sdt edt) r hT]
      refine ⟨by simp, by simp [hk], by simp, ?_, fun h => absurd hT h,
        fun _ => by simp, hcoerce.1, hcoerce.2.1, hcoerce.2.2.1,
        hcoerce.2.2.2.1, hcoerce.2.2.2.2⟩
      rw [travelRow_Travel_Cost]
      apply round2_nonneg
      apply mul_nonneg _ hk
      split_ifs with hlt
      · exact le_refl 0
      · exact le_of_not_lt hlt
    · have hnt : ¬ normTag r.Event_Type = "travel" := hT
      by_cases hF : normTag r.Event_Type = "free"
      · rw [deriveRow_eq_free i f k (inclusiveDays sdt edt) r hF]
        exact ⟨by simp, by simp, by simp, by simp, fun _ => by simp,
          fun h => absurd h hnt, hcoerce.1, hcoerce.2.1, hcoerce.2.2.1,
          hcoerce.2.2.2.1, hcoerce.2.2.2.2⟩
      · rw [deriveRow_eq_other i f k (inclusiveDays sdt edt) r hW hT hF]
        exact ⟨by simp, by simp, by simp, by simp, fun _ => by simp,
          fun h => absurd h hnt, hcoerce.1, hcoerce.2.1, hcoerce.2.2.1,
          hcoerce.2.2.2.1, hcoerce.2.2.2.2⟩

/-- C4 witness: the amended non-negativity conjunction at the concrete
onsite travel row with rates 14, 28, 0.30. -/
theorem C4_nonneg_after_derivation_witness :
    0 ≤ (recalcRow 14 28 (3/10) travelOnsiteRow).Per_Diem_Rate ∧
    0 ≤ (recalcRow 14 28 (3/10) travelOnsiteRow).Km_Rate ∧
    0 ≤ (recalcRow 14 28 (3/10) travelOnsiteRow).Per_Diem_Total ∧
    0 ≤ (recalcRow 14 28 (3/10) travelOnsiteRow).Travel_Cost ∧
    (¬ normTag travelOnsiteRow.Event_Type = "travel" →
      (recalcRow 14 28 (3/10) travelOnsiteRow).Distance_km = 0) ∧
    (normTag travelOnsiteRow.Event_Type = "travel" →
      (recalcRow 14 28 (3/10) travelOnsiteRow).Distance_km
        = travelOnsiteRow.Distance_km) ∧
    (∀ raw : RawRow, raw.Per_Diem_Rate = none → (coerceRow raw).Per_Diem_Rate = 0) ∧
    (∀ raw : RawRow, raw.Km_Rate = none → (coerceRow raw).Km_Rate = 0) ∧
    (∀ raw : RawRow, raw.Distance_km = none → (coerceRow raw).Distance_km = 0) ∧
    (∀ raw : RawRow, raw.Per_Diem_Total = none → (coerceRow raw).Per_Diem_Total = 0) ∧
    (∀ raw : RawRow, raw.Travel_Cost = none → (coerceRow raw).Travel_Cost = 0) :=
  C4_nonneg_after_derivation 14 28 (3/10) travelOnsiteRow
    ⟨2025, 6, 1, 8, 0⟩ ⟨2025, 6, 1, 10, 0⟩ (by decide) (by decide)
    (by norm_num) (by norm_num) (by norm_num)

/-- C3 counterexample: a row whose `Start` does not parse is not passed
through fully unmodified — its unparsable `Per_Diem_Total` cell has been
coerced to a number by the column-wide coercion that runs before the
per-row loop. -/
theorem C3_counterexample :
    parse_datetime badDateRaw.Start = none ∧
    ¬ unmodified badDateRaw (processRow 14 28 (3/10) badDateRaw) := by
  refine ⟨by decide, ?_⟩
  intro h
  obtain ⟨-, -, -, -, -, -, -, -, -, hP, -⟩ := h
  exact Option.noConfusion hP

/-- C3 (amended): a row whose `Start` or `End` fails to parse skips
derivation — every field is left as it stood after the numeric coercion
(string cells exactly as input; an unparsable numeric cell has already
become `0.0`) — and the remaining rows of the batch are processed
normally. -/
theorem C3_skip_row_coerces_only (i f k : ℚ) (raw : RawRow)
    (hfail : parse_datetime raw.Start = none ∨ parse_datetime raw.End = none)
    (l1 l2 : List RawRow) :
    processRow i f k raw = coerceRow raw ∧
    recalculate_dataframe i f k (l1 ++ raw :: l2)
      = l1.map (processRow i f k)
        ++ coerceRow raw :: l2.map (processRow i f k) := by
  have hskip : processRow i f k raw = coerceRow raw := by
    unfold processRow recalcRow
    rcases hfail with h | h
    · have h' : parse_datetime (coerceRow raw).Start = none := h
      rw [h']
    · have h' : parse_datetime (coerceRow raw).End = none := h
      rw [h']
      cases parse_datetime (coerceRow raw).Start <;> rfl
  refine ⟨hskip, ?_⟩
  simp [recalculate_dataframe, hskip]

/-- C3 witness: the skip behaviour at the concrete bad-date row placed
between two well-formed rows. -/
theorem C3_skip_row_coerces_only_witness :
    processRow 14 28 (3/10) badDateRaw = coerceRow badDateRaw ∧
    recalculate_dataframe 14 28 (3/10) ([rawWorkA] ++ badDateRaw :: [rawWorkB])
      = [rawWorkA].map (processRow 14 28 (3/10))
        ++ coerceRow badDateRaw :: [rawWorkB].map (processRow 14 28 (3/10)) :=
  C3_skip_row_coerces_only 14 28 (3/10) badDateRaw
    (Or.inl (by decide)) [rawWorkA] [rawWorkB]

/-- Characterisation of the two-level sort comparison. -/
theorem rowLE_iff (a b : Row) :
    rowLE a b = true ↔
      (a.Start < b.Start ∨
        (a.Start = b.Start ∧
          sortKeyNum a.Event_Type ≤ sortKeyNum b.Event_Type)) := by
  unfold rowLE
  split_ifs with h1 h2
  · simp [h1]
  · simp [h1, h2]
  · simp [h1, h2]

/-- The sort comparison is transitive. -/
theorem rowLE_trans (a b c : Row) (hab : rowLE a b) (hbc : rowLE b c) :
    rowLE a c := by
  rw [rowLE_iff] at *
  rcases hab with h1 | ⟨h1, h2⟩
  · rcases hbc with g1 | ⟨g1, g2⟩
    · exact Or.inl (lt_trans h1 g1)
    · exact Or.inl (g1 ▸ h1)
  · rcases hbc with g1 | ⟨g1, g2⟩
    · exact Or.inl (h1 ▸ g1)
    · exact Or.inr ⟨h1.trans g1, le_trans h2 g2⟩

/-- The sort comparison is total. -/
theorem rowLE_total (a b : Row) : rowLE a b || rowLE b a := by
  rw [Bool.or_eq_true, rowLE_iff, rowLE_iff]
  rcases lt_trichotomy a.Start b.Start with h | h | h
  · exact Or.inl (Or.inl h)
  · rcases le_total (sortKeyNum a.Event_Type) (sortKeyNum b.Event_Type) with g | g
    · exact Or.inl (Or.inr ⟨h, g⟩)
    · exact Or.inr (Or.inr ⟨h.symm, g⟩)
  · exact Or.inr (Or.inl h)

/-- C9: after `finalize` (derivation then the sort step) the table is
ordered by `Start` ascending; among rows sharing a `Start`, no `travel`
row precedes a `work` or `free` row; the result is a permutation of the
derived table; and the sort is stable — two rows that tie on `Start` and
on the secondary key keep their original relative order. -/
theorem C9_finalize_sorted (i f k : ℚ) (raws : List RawRow) :
    (finalize i f k raws).Pairwise (fun a b => a.Start ≤ b.Start) ∧
    (finalize i f k raws).Pairwise (fun a b => a.Start = b.Start →
      (b.Event_Type = "work" ∨ b.Event_Type = "free") →
      ¬ a.Event_Type = "travel") ∧
    (finalize i f k raws).Perm (recalculate_dataframe i f k raws) ∧
    (∀ a b : Row, a.Start = b.Start →
      sortKeyNum a.Event_Type = sortKeyNum b.Event_Type →
      [a, b].Sublist (recalculate_dataframe i f k raws) →
      [a, b].Sublist (finalize i f k raws)) := by
  have hp : (finalize i f k raws).Pairwise (fun a b => rowLE a b = true) :=
    List.sorted_mergeSort rowLE_trans
      (fun a b => rowLE_total a b) (recalculate_dataframe i f k raws)
  refine ⟨?_, ?_, ?_, ?_⟩
  · refine hp.imp ?_
    intro a b hab
    rw [rowLE_iff] at hab
    rcases hab with h | ⟨h, -⟩
    · exact le_of_lt h
    · exact le_of_eq h
  · refine hp.imp ?_
    intro a b hab heq hbwf
    intro hat
    rw [rowLE_iff] at hab
    have hka : sortKeyNum a.Event_Type = 1 := by
      rw [hat]
      decide
    have hkb : sortKeyNum b.Event_Type = 0 := by
      rcases hbwf with h | h <;> rw [h] <;> decide
    rcases hab with h | ⟨-, h2⟩
    · exact absurd heq (ne_of_lt h)
    · rw [hka, hkb] at h2
      omega
  · simpa [finalize, sortRows] using
      List.mergeSort_perm (recalculate_dataframe i f k raws) rowLE
  · intro a b hst hkey hsub
    apply List.pair_sublist_mergeSort rowLE_trans (fun a b => rowLE_total a b)
      ?_ hsub
    rw [rowLE_iff]
    exact Or.inr ⟨hst, le_of_eq hkey⟩

/-- C9 witness: stability at two concrete derived work rows sharing a
`Start`. -/
theorem C9_finalize_sorted_witness :
    [processRow 14 28 (3/10) rawWorkA,
     processRow 14 28 (3/10) rawWorkB].Sublist
      (finalize 14 28 (3/10) [rawWorkA, rawWorkB]) := by
  have h := C9_finalize_sorted 14 28 (3/10) [rawWorkA, rawWorkB]
  exact h.2.2.2 _ _ (by decide) (by decide) (List.Sublist.refl _)

/-- C8: the timeline seeder emits one `free` placeholder per calendar day
of the inclusive range — each starting at `00:00` and ending at `23:59` of
its day, with a pre-filled description — so seeding 2025-06-01 to
2025-06-03 yields exactly 3 such rows; it yields the empty sequence when
the upper bound precedes the lower; and it fails (no rows) when either
bound does not parse as a bare `YYYY-MM-DD` date. -/
theorem C8_timeline_seeding (fd td : String) :
    ((parse_date_only fd = none ∨ parse_date_only td = none) →
      build_initial_timeline fd td = none) ∧
    (∀ s e : Nat × Nat × Nat,
      parse_date_only fd = some s → parse_date_only td = some e →
      (daysFromCivil e.1 e.2.1 e.2.2 < daysFromCivil s.1 s.2.1 s.2.2 →
        build_initial_timeline fd td = some []) ∧
      (daysFromCivil s.1 s.2.1 s.2.2 ≤ daysFromCivil e.1 e.2.1 e.2.2 →
        ∃ rows, build_initial_timeline fd td = some rows ∧
          rows.length = (daysFromCivil e.1 e.2.1 e.2.2
            - daysFromCivil s.1 s.2.1 s.2.2 + 1).toNat ∧
          ∀ i : Nat, ∀ h : i < rows.length,
            rows.get ⟨i, h⟩
              = freePlaceholder (daysFromCivil s.1 s.2.1 s.2.2 + i))) ∧
    (∀ z : Int,
      (freePlaceholder z).Event_Type = "free" ∧
      (freePlaceholder z).Start = dateStr (civilFromDays z) ++ "T00:00" ∧
      (freePlaceholder z).End = dateStr (civilFromDays z) ++ "T23:59" ∧
      isBlank (freePlaceholder z).Description = false) ∧
    (∃ rows, build_initial_timeline ("2025-06-01") ("2025-06-03") = some rows ∧
      rows.length = 3 ∧ ∀ r ∈ rows, r.Event_Type = "free") := by
  refine ⟨?_, ?_, ?_, ?_⟩
  · intro h
    unfold build_initial_timeline
    rcases h with h | h
    · rw [h]
    · rw [h]
      cases parse_date_only fd <;> rfl
  · intro s e hs he
    unfold build_initial_timeline
    rw [hs, he]
    dsimp only
    constructor
    · intro hlt
      rw [if_pos hlt]
      simp
    · intro hle
      rw [if_neg (not_lt.mpr hle)]
      refine ⟨_, rfl, by simp, ?_⟩
      intro i h
      simp
  · intro z
    refine ⟨rfl, rfl, rfl, ?_⟩
    unfold freePlaceholder
    dsimp only
    simp
  · exact ⟨_, rfl, by decide, by decide⟩

/-- C8 witness: the seeding conjunction applied at the documented range
2025-06-01 — 2025-06-03. -/
theorem C8_timeline_seeding_witness :
    ∃ rows, build_initial_timeline ("2025-06-01") ("2025-06-03") = some rows ∧
      rows.length = (daysFromCivil 2025 6 3 - daysFromCivil 2025 6 1 + 1).toNat := by
  have h := C8_timeline_seeding ("2025-06-01") ("2025-06-03")
  obtain ⟨rows, hr, hlen, -⟩ :=
    (h.2.1 (2025, 6, 1) (2025, 6, 3) (by decide) (by decide)).2 (by decide)
  exact ⟨rows, hr, hlen⟩
